import Mathlib

/-
Verification of the MOBILIO recommendation service against its design
specification.  The definitions below are a shallow embedding of the
Python sources `recomendation/main.py`,
`recomendation/services/ml_recommendation_service.py` and
`recomendation/models/schemas.py`: pure fragments become Lean functions,
database reads and connection attempts become explicit `Except` valued
inputs, and the mutable service object becomes explicit state passing.
Numeric columns and similarity scores are modelled as rationals.
-/

namespace Mobilio

/-- Row of the `products` table as mirrored into the analytics store
(id, name, price, brand, category, rating, picture, stock); the nullable
columns are `Option`. -/
structure ProductRow where
  id : Nat
  name : String
  price : Option ℚ
  brand : Option String
  category : Option String
  rating : Option ℚ
  picture : Option String
  stock : Option Int
deriving DecidableEq

/-- Row of the `users` table as read by the sync step
(`SELECT id, name, email FROM users`). -/
structure UserRow where
  id : Nat
  name : String
  email : String
deriving DecidableEq

/-- Row of the `orders` table (columns used by the service). -/
structure OrderRow where
  id : Nat
  customer_id : Nat
  total_amount : Option ℚ
deriving DecidableEq

/-- Row of the `orderitem` table (columns used by the service).  The only
primary key is `id`, so the same `(order_id, product_id)` pair may occur
on several rows. -/
structure OrderItemRow where
  id : Nat
  order_id : Nat
  product_id : Nat
  quantity : Nat
  total_amount : Option ℚ
deriving DecidableEq

/-- Contents of the four mirrored tables of the analytics store. -/
structure MirrorState where
  users : List UserRow
  products : List ProductRow
  orders : List OrderRow
  orderitems : List OrderItemRow
deriving DecidableEq

/- ===== Health reporter (`get_health_status`) ===== -/

/-- One entry of the `db_status` dict: the literal string `"healthy"` when
the round trip query succeeds, otherwise `"error: "` followed by the
exception text. -/
def db_status_entry (reachable : Bool) (errMsg : String) : String :=
  if reachable then "healthy" else "error: " ++ errMsg

/-- Python truthiness of a string, as tested by `all(...)`: every
non-empty string is truthy. -/
def py_truthy_string (s : String) : Bool := s != ""

/-- Reachability of the two stores plus the exception texts produced when
a round trip fails. -/
structure HealthEnv where
  prodReachable : Bool
  prodErr : String
  anaReachable : Bool
  anaErr : String

/-- The overall `"status"` field computed by
`MLRecommendationService.get_health_status`, which is the expression
`"healthy" if self.models_trained and all(db_status.values()) else "degraded"`;
`all` tests Python truthiness of the two status strings. -/
def health_overall_status (models_trained : Bool) (env : HealthEnv) : String :=
  let prodStatus := db_status_entry env.prodReachable env.prodErr
  let anaStatus := db_status_entry env.anaReachable env.anaErr
  if models_trained && py_truthy_string prodStatus && py_truthy_string anaStatus then
    "healthy"
  else
    "degraded"

/- ===== Route handlers of main.py ===== -/

/-- A raised Python exception, as far as the route handlers distinguish
them: FastAPI `HTTPException(status_code, detail)` or any other
exception rendered by its message. -/
inductive PyExc where
  | httpException (status : Nat) (detail : String)
  | other (msg : String)
deriving DecidableEq

/-- Python `str(e)` on an exception: Starlette renders an `HTTPException`
as `"{status_code}: {detail}"`. -/
def py_exc_str : PyExc → String
  | .httpException st d => toString st ++ ": " ++ d
  | .other m => m

/-- The `ProductRecommendation` response model of `models/schemas.py`
(price kept `Option` to mirror the nullable database column it is copied
from). -/
structure ProductRecommendation where
  product_id : Nat
  name : String
  price : Option ℚ
  brand : Option String
  category : Option String
  rating : Option ℚ
  picture : Option String
  score : ℚ
  reason : String
deriving DecidableEq

/-- Body of the `try` block of the `/similar/{product_id}` handler: run
the service call, then `raise HTTPException(404, ...)` when the returned
list is empty (`if not recommendations`). -/
def similar_try_body (svcOutcome : Except PyExc (List ProductRecommendation))
    (product_id : Nat) : Except PyExc (List ProductRecommendation) :=
  match svcOutcome with
  | .error e => .error e
  | .ok recs =>
      if recs.isEmpty then
        .error (.httpException 404
          ("No similar products found for product " ++ toString product_id))
      else
        .ok recs

/-- The `/similar/{product_id}` route handler `get_similar_products` of
main.py.  The second component of the pair records whether the service
layer ran at all (hence whether any data store could be touched): the
`limit > 50` check precedes the `try` block and the service call.  The
handler's `except Exception` clause catches every exception raised inside
the `try` block — the `HTTPException(404)` included, since FastAPI's
`HTTPException` subclasses `Exception` — and re-raises it as a 500. -/
def get_similar_products_endpoint (limit : Int)
    (svcOutcome : Except PyExc (List ProductRecommendation)) (product_id : Nat) :
    Except PyExc (List ProductRecommendation) × Bool :=
  if limit > 50 then
    (.error (.httpException 400 "Limit cannot exceed 50"), false)
  else
    match similar_try_body svcOutcome product_id with
    | .ok recs => (.ok recs, true)
    | .error e =>
        (.error (.httpException 500 ("Error getting similar products: " ++ py_exc_str e)),
         true)

/-- Body of the `try` block of the `/copurchase/{product_id}` handler. -/
def copurchase_try_body (svcOutcome : Except PyExc (List ProductRecommendation))
    (product_id : Nat) : Except PyExc (List ProductRecommendation) :=
  match svcOutcome with
  | .error e => .error e
  | .ok recs =>
      if recs.isEmpty then
        .error (.httpException 404
          ("No co-purchase recommendations found for product " ++ toString product_id))
      else
        .ok recs

/-- The `/copurchase/{product_id}` route handler
`get_copurchase_recommendations` of main.py, with the same structure as
`get_similar_products_endpoint`. -/
def get_copurchase_endpoint (limit : Int)
    (svcOutcome : Except PyExc (List ProductRecommendation)) (product_id : Nat) :
    Except PyExc (List ProductRecommendation) × Bool :=
  if limit > 50 then
    (.error (.httpException 400 "Limit cannot exceed 50"), false)
  else
    match copurchase_try_body svcOutcome product_id with
    | .ok recs => (.ok recs, true)
    | .error e =>
        (.error (.httpException 500
          ("Error getting co-purchase recommendations: " ++ py_exc_str e)),
         true)

/- ===== Data syncer (`sync_production_data`) ===== -/

/-- Per-table counts returned by a successful sync. -/
structure SyncStats where
  users_synced : Nat
  products_synced : Nat
  orders_synced : Nat
  order_items_synced : Nat
deriving DecidableEq

/-- Result dict of `sync_production_data`: `{"status": "success", ...}` or
`{"status": "error", "error": msg}`. -/
inductive SyncResult where
  | success (stats : SyncStats)
  | error (msg : String)
deriving DecidableEq

/-- Outcomes of the externally visible steps of a sync attempt: acquiring
the two connections, then the four reads against the production source,
in the order the code performs them. -/
structure SyncEnv where
  prodConn : Except String Unit
  anaConn : Except String Unit
  readUsers : Except String (List UserRow)
  readProducts : Except String (List ProductRow)
  readOrders : Except String (List OrderRow)
  readOrderItems : Except String (List OrderItemRow)

/-- The transactional part of the sync: on the analytics connection the
code issues `DELETE FROM` each of the four tables and then inserts the
rows read from production, with `analytics_conn.commit()` only after all
four reads and inserts have succeeded.  Both connections run with
autocommit off (sqlite3 default, `autocommit: False` for pymysql), so
these staged writes form one uncommitted transaction; the value returned
here is the staged mirror contents that a commit would publish. -/
def sync_txn_steps (env : SyncEnv) : Except String MirrorState := do
  let users ← env.readUsers
  let products ← env.readProducts
  let orders ← env.readOrders
  let items ← env.readOrderItems
  pure ⟨users, products, orders, items⟩

/-- `MLRecommendationService.sync_production_data`.  A failure of either
connection, or of any read, propagates to the `finally` block, which
closes the connections without committing: the staged `DELETE`s and
`INSERT`s are discarded and the mirror keeps its previous contents.  Only
the final `commit` replaces the mirror, with exactly the rows read. -/
def sync_production_data (mirror : MirrorState) (env : SyncEnv) :
    SyncResult × MirrorState :=
  match env.prodConn with
  | .error e => (.error e, mirror)
  | .ok _ =>
    match env.anaConn with
    | .error e => (.error e, mirror)
    | .ok _ =>
      match sync_txn_steps env with
      | .error e => (.error e, mirror)
      | .ok staged =>
          (.success ⟨staged.users.length, staged.products.length,
                     staged.orders.length, staged.orderitems.length⟩,
           staged)

/- ===== Model artifacts and training (`train_models`) ===== -/

/-- Sparse dict-of-dict matrix: an association list from product id to
its neighbor dict, itself an association list from neighbor id to score,
both in insertion order as a Python dict. -/
abbrev SparseMatrix := List (Nat × List (Nat × ℚ))

/-- In-memory state of the service object: the three model structures and
the trained flag. -/
structure ServiceState where
  similarity_matrix : SparseMatrix
  copurchase_matrix : SparseMatrix
  product_features : List (Nat × ProductRow)
  models_trained : Bool
deriving DecidableEq

/-- The three pickle files written by `_save_models` (`none` = absent). -/
structure ArtifactFiles where
  similarity_file : Option SparseMatrix
  copurchase_file : Option SparseMatrix
  features_file : Option (List (Nat × ProductRow))
deriving DecidableEq

/-- Outcomes of the data dependent steps of a training run, in execution
order: connecting to the analytics store, building the co-purchase
matrix, building the similarity matrix, loading the feature table.  Each
may raise (a database error propagates out of the builders: they catch
only `ImportError`, and `_build_user_item_matrix` turns its own errors
into the fallback which can itself raise on its query). -/
structure TrainEnv where
  anaConn : Except String Unit
  buildCopurchase : Except String SparseMatrix
  buildSimilarity : Except String SparseMatrix
  loadFeatures : Except String (List (Nat × ProductRow))

/-- Result dict of `train_models` (counts only; the timing fields are
dropped). -/
inductive TrainResult where
  | success (products_count copurchase_pairs similarity_pairs : Nat)
  | error (msg : String)
deriving DecidableEq

/-- `MLRecommendationService.train_models`.  Each build step assigns its
result to the corresponding `self.` field as soon as it completes; an
exception at any later step is caught by the outer `except`, which
returns an error dict and leaves every assignment already made in place.
`_save_models` (which writes all three files) and the
`models_trained = True` assignment run only after all three steps have
succeeded; `_save_models` swallows its own errors, so training then
always reports success. -/
def train_models (st : ServiceState) (files : ArtifactFiles) (env : TrainEnv) :
    TrainResult × ServiceState × ArtifactFiles :=
  match env.anaConn with
  | .error e => (.error e, st, files)
  | .ok _ =>
    match env.buildCopurchase with
    | .error e => (.error e, st, files)
    | .ok cop =>
      let st1 := { st with copurchase_matrix := cop }
      match env.buildSimilarity with
      | .error e => (.error e, st1, files)
      | .ok sim =>
        let st2 := { st1 with similarity_matrix := sim }
        match env.loadFeatures with
        | .error e => (.error e, st2, files)
        | .ok feats =>
          let st3 := { st2 with product_features := feats, models_trained := true }
          (.success feats.length cop.length sim.length, st3,
           ⟨some st3.similarity_matrix, some st3.copurchase_matrix,
            some st3.product_features⟩)

/- ===== Serving layer (`get_similar_products` and helpers) ===== -/

/-- Lookup in an association list, as `dict[key]` / `key in dict`. -/
def alookup {α : Type} : List (Nat × α) → Nat → Option α
  | [], _ => none
  | (k, v) :: rest, key => if k = key then some v else alookup rest key

/-- Insert a scored pair into a score-descending list, before the first
entry with a strictly smaller score.  Entries with equal scores keep
their original relative order, matching the stability of Python's
`sorted(..., key=lambda x: x[1], reverse=True)`. -/
def insert_desc (x : Nat × ℚ) : List (Nat × ℚ) → List (Nat × ℚ)
  | [] => [x]
  | y :: ys => if y.2 ≤ x.2 then x :: y :: ys else y :: insert_desc x ys

/-- Stable sort by descending score (Python `sorted` with
`key=lambda x: x[1], reverse=True`). -/
def py_sorted_desc : List (Nat × ℚ) → List (Nat × ℚ)
  | [] => []
  | x :: xs => insert_desc x (py_sorted_desc xs)

/-- Python list slice `l[:n]`, including the negative-stop semantics:
for `n < 0` it keeps the elements whose index is below `len(l) + n`. -/
def py_slice_to {α : Type} (n : Int) (l : List α) : List α :=
  if 0 ≤ n then l.take n.toNat
  else l.take (l.length - (-n).toNat)

/-- SQL `a = b` on a nullable column: `NULL` compares equal to nothing. -/
def sql_eq_opt (a b : Option String) : Bool :=
  match a, b with
  | some x, some y => x == y
  | _, _ => false

/-- SQL `stock > 0` on a nullable column: false when `NULL`. -/
def sql_stock_pos (a : Option Int) : Bool :=
  match a with
  | some x => 0 < x
  | none => false

/-- Strict comparison on a nullable numeric sort key; `NULL` sorts below
every value (SQLite and MySQL both place NULLs first ascending, last
descending). -/
def opt_lt (a b : Option ℚ) : Bool :=
  match a, b with
  | none, none => false
  | none, some _ => true
  | some _, none => false
  | some x, some y => x < y

/-- Row order of `ORDER BY rating DESC, price ASC`: `p` sorts no later
than `q`. -/
def fallback_row_le (p q : ProductRow) : Bool :=
  if opt_lt q.rating p.rating then true
  else if opt_lt p.rating q.rating then false
  else !(opt_lt q.price p.price)

/-- Generic stable insertion used to model a deterministic result order
for the SQL `ORDER BY`. -/
def insert_by {α : Type} (le : α → α → Bool) (x : α) : List α → List α
  | [] => [x]
  | y :: ys => if le x y then x :: y :: ys else y :: insert_by le x ys

/-- Stable sort from `insert_by`. -/
def sort_by {α : Type} (le : α → α → Bool) : List α → List α
  | [] => []
  | x :: xs => insert_by le x (sort_by le xs)

/-- SQL `LIMIT n` (SQLite treats a negative limit as no limit). -/
def sql_limit {α : Type} (n : Int) (l : List α) : List α :=
  if n < 0 then l else l.take n.toNat

/-- `MLRecommendationService._get_fallback_similar_products`: fetch the
product row, then query same-category, in-stock products excluding the
product itself, ordered by rating descending then price ascending,
truncated by the SQL `LIMIT`, each returned with the fixed score `0.6`
and a same-category reason. -/
def get_fallback_similar_products (db : MirrorState) (product_id : Nat)
    (limit : Int) : List ProductRecommendation :=
  match (db.products.filter (fun p => p.id == product_id)).head? with
  | none => []
  | some original =>
      let candidates := db.products.filter (fun p =>
        sql_eq_opt p.category original.category && p.id != product_id &&
          sql_stock_pos p.stock)
      let ordered := sort_by fallback_row_le candidates
      (sql_limit limit ordered).map (fun p =>
        { product_id := p.id, name := p.name, price := p.price, brand := p.brand,
          category := p.category, rating := p.rating, picture := p.picture,
          score := 0.6, reason := "Same category as " ++ original.name })

/-- Loop body of the trained path of
`MLRecommendationService.get_similar_products`: a `(neighbor id, score)`
pair becomes a recommendation when the neighbor still has a feature row
(`if similar_id in self.product_features`), carrying the similarity
score. -/
def enrich_similar (feats : List (Nat × ProductRow)) (sc : Nat × ℚ) :
    Option ProductRecommendation :=
  match alookup feats sc.1 with
  | none => none
  | some p =>
      some { product_id := sc.1, name := p.name, price := p.price,
             brand := p.brand, category := p.category, rating := p.rating,
             picture := p.picture, score := sc.2,
             reason := "Similar to your selected product (ML similarity: "
               ++ toString sc.2 ++ ")" }

/-- `MLRecommendationService.get_similar_products`.  When untrained, or
when the product id has no row in the similarity matrix, the live
fallback query runs; otherwise the neighbor dict is sorted by descending
score (Python's stable sort), sliced by `[:limit]`, and each remaining
neighbor is enriched by `enrich_similar`. -/
def get_similar_products (st : ServiceState) (db : MirrorState)
    (product_id : Nat) (limit : Int) : List ProductRecommendation :=
  if !st.models_trained then get_fallback_similar_products db product_id limit
  else
    match alookup st.similarity_matrix product_id with
    | none => get_fallback_similar_products db product_id limit
    | some row =>
        (py_slice_to limit (py_sorted_desc row)).filterMap
          (enrich_similar st.product_features)

/- ===== Content similarity fallback (`_calculate_product_similarity`,
`_build_simple_similarity_matrix`) ===== -/

/-- `MLRecommendationService._calculate_product_similarity`: 0.4 for an
equal category column, plus 0.3 for an equal brand column (Python `==`,
so two NULLs also compare equal), plus up to 0.2 for price closeness —
the price term is guarded by Python truthiness of both prices (skipped
when either is NULL or zero) and by `max_price > 0` — capped at 1.0. -/
def calculate_product_similarity (p1 p2 : ProductRow) : ℚ :=
  let s1 : ℚ := if p1.category = p2.category then 0.4 else 0
  let s2 : ℚ := if p1.brand = p2.brand then s1 + 0.3 else s1
  let s3 : ℚ :=
    match p1.price, p2.price with
    | some a, some b =>
        if a ≠ 0 ∧ b ≠ 0 then
          if 0 < max a b then s2 + (1 - |a - b| / max a b) * 0.2 else s2
        else s2
    | _, _ => s2
  min s3 1

/-- Formula of the specification, for comparison with the code: score =
0.4 for same category + 0.3 for same brand + 0.2 times one minus the
relative price difference when both prices are known, capped at 1.0. -/
def spec_fallback_score (p1 p2 : ProductRow) : ℚ :=
  let c : ℚ := if p1.category = p2.category then 0.4 else 0
  let b : ℚ := if p1.brand = p2.brand then 0.3 else 0
  let pr : ℚ :=
    match p1.price, p2.price with
    | some x, some y => 0.2 * (1 - |x - y| / max x y)
    | _, _ => 0
  min (c + b + pr) 1

/-- All position-ordered pairs of a list, as produced by the nested loop
`for i, prod1 in enumerate(products): for j, prod2 in
enumerate(products[i+1:], i+1)`. -/
def ordered_pairs {α : Type} : List α → List (α × α)
  | [] => []
  | x :: xs => xs.map (fun y => (x, y)) ++ ordered_pairs xs

/-- Edge list written by the loop body of
`_build_simple_similarity_matrix`: for each ordered pair with score above
0.3, both directed edges are stored with that score. -/
def sim_edges : List (ProductRow × ProductRow) → List (Nat × Nat × ℚ)
  | [] => []
  | pq :: rest =>
      let s := calculate_product_similarity pq.1 pq.2
      if 0.3 < s then
        (pq.1.id, pq.2.id, s) :: (pq.2.id, pq.1.id, s) :: sim_edges rest
      else
        sim_edges rest

/-- `MLRecommendationService._build_simple_similarity_matrix`, as the
list of directed edges it stores (product ids are unique in the catalog,
so the nested dict holds exactly these entries). -/
def build_simple_similarity_matrix (ps : List ProductRow) : List (Nat × Nat × ℚ) :=
  sim_edges (ordered_pairs ps)

/- ===== Co-purchase fallback (`_build_simple_copurchase_matrix`) ===== -/

/-- Rows of the self join `orderitem o1 JOIN orderitem o2 ON o1.order_id
= o2.order_id AND o1.product_id < o2.product_id`. -/
def item_join_pairs (items : List OrderItemRow) : List (OrderItemRow × OrderItemRow) :=
  items.flatMap (fun i1 =>
    (items.filter (fun i2 =>
      i2.order_id == i1.order_id && i1.product_id < i2.product_id)).map
      (fun i2 => (i1, i2)))

/-- The `COUNT(*)` of the group `(product1, product2)`: the number of
joined row pairs, not the number of distinct orders. -/
def copurchase_pair_count (items : List OrderItemRow) (a b : Nat) : Nat :=
  ((item_join_pairs items).filter (fun p =>
    p.1.product_id == a && p.2.product_id == b)).length

/-- The distinct group keys produced by `GROUP BY o1.product_id,
o2.product_id`. -/
def copurchase_group_keys (items : List OrderItemRow) : List (Nat × Nat) :=
  ((item_join_pairs items).map (fun p => (p.1.product_id, p.2.product_id))).dedup

/-- `MLRecommendationService._build_simple_copurchase_matrix`, as the
list of directed edges stored by its loop: each grouped pair whose count
passes `HAVING frequency >= 2` is inserted in both directions with that
count. -/
def build_simple_copurchase_matrix (items : List OrderItemRow) : List (Nat × Nat × Nat) :=
  (copurchase_group_keys items).flatMap (fun k =>
    if 2 ≤ copurchase_pair_count items k.1 k.2 then
      [(k.1, k.2, copurchase_pair_count items k.1 k.2),
       (k.2, k.1, copurchase_pair_count items k.1 k.2)]
    else [])

/-- Number of distinct orders in which both products appear, the weight
notion used by the specification. -/
def num_orders_together (items : List OrderItemRow) (a b : Nat) : Nat :=
  (((items.map (fun it => it.order_id)).dedup).filter (fun oid =>
    (items.any (fun it => it.order_id == oid && it.product_id == a)) &&
    (items.any (fun it => it.order_id == oid && it.product_id == b)))).length

/- ===== Co-purchase trainer branch selection (`_build_copurchase_matrix`,
`_build_user_item_matrix`) ===== -/

/-- Rows of `orders JOIN orderitem ON orders.id = orderitem.order_id`, as
`(customer_id, product_id, quantity)` triples. -/
def joined_order_rows (orders : List OrderRow) (items : List OrderItemRow) :
    List (Nat × Nat × Nat) :=
  orders.flatMap (fun o =>
    (items.filter (fun it => it.order_id == o.id)).map
      (fun it => (o.customer_id, it.product_id, it.quantity)))

/-- The distinct `(customer_id, product_id)` group keys of the
interaction query. -/
def interaction_keys (orders : List OrderRow) (items : List OrderItemRow) :
    List (Nat × Nat) :=
  ((joined_order_rows orders items).map (fun r => (r.1, r.2.1))).dedup

/-- `SUM(orderitem.quantity)` for one `(customer_id, product_id)` group. -/
def interaction_strength (orders : List OrderRow) (items : List OrderItemRow)
    (c p : Nat) : Nat :=
  (((joined_order_rows orders items).filter (fun r =>
      r.1 == c && r.2.1 == p)).map (fun r => r.2.2)).sum

/-- The customer-product interaction-strength table built by the query in
`_build_user_item_matrix`, one row per distinct `(customer, product)`
pair. -/
def interactions (orders : List OrderRow) (items : List OrderItemRow) :
    List ((Nat × Nat) × Nat) :=
  (interaction_keys orders items).map
    (fun k => (k, interaction_strength orders items k.1 k.2))

/-- Number of rows of the user-item matrix: distinct customers among the
interactions. -/
def interaction_rows (orders : List OrderRow) (items : List OrderItemRow) : Nat :=
  (((interactions orders items).map (fun r => r.1.1)).dedup).length

/-- Number of columns of the user-item matrix: distinct products among
the interactions. -/
def interaction_cols (orders : List OrderRow) (items : List OrderItemRow) : Nat :=
  (((interactions orders items).map (fun r => r.1.2)).dedup).length

/-- The two construction strategies of the co-purchase graph. -/
inductive CopurchasePath where
  | factorization
  | simple_fallback
deriving DecidableEq

/-- Which branch `_build_copurchase_matrix` takes: an `ImportError`
(numpy or scikit-learn missing) selects the fallback, and so does
`_build_user_item_matrix` returning `None`, which happens exactly when
the interaction query yields no rows; any non-empty interaction table
flows into `_matrix_factorization`, whatever the matrix dimensions. -/
def copurchase_build_path (ml_available : Bool) (orders : List OrderRow)
    (items : List OrderItemRow) : CopurchasePath :=
  if !ml_available then .simple_fallback
  else if interactions orders items = [] then .simple_fallback
  else .factorization

/- ===== Predicates taken from the specification's wording ===== -/

/-- A catalog row whose price column, when present, is positive — the
regime in which the specification's price term is well defined. -/
def price_ok (p : ProductRow) : Prop :=
  p.price = none ∨ ∃ q : ℚ, p.price = some q ∧ 0 < q

/-- Ordering asserted by the specification for `getSimilar` results:
descending score with ties broken by ascending product id. -/
def claim_tie_order (l : List ProductRecommendation) : Prop :=
  l.Pairwise (fun r1 r2 =>
    r2.score < r1.score ∨ (r1.score = r2.score ∧ r1.product_id < r2.product_id))

/- ===== Concrete states used by the witnesses and counterexamples ===== -/

/-- Service state already trained, holding one prior co-purchase row. -/
def c1St : ServiceState := ⟨[], [(1, [(2, 5)])], [], true⟩

/-- Artifact files absent on disk. -/
def c1Files : ArtifactFiles := ⟨none, none, none⟩

/-- A training run whose similarity build step raises after the
co-purchase build has already succeeded. -/
def c1Env : TrainEnv :=
  ⟨.ok (), .ok [(7, [(8, 1)])], .error "similarity query failed", .ok []⟩

/-- A populated mirror. -/
def c3Mirror : MirrorState :=
  ⟨[⟨1, "u", "u@example.com"⟩], [⟨2, "p", some 3, none, none, none, none, some 1⟩],
   [⟨5, 1, none⟩], [⟨6, 5, 2, 1, none⟩]⟩

/-- A sync attempt whose orders read fails after users and products were
already read (and staged). -/
def c3Env : SyncEnv :=
  ⟨.ok (), .ok (), .ok [], .ok [], .error "orders unreachable", .ok []⟩

/-- Feature row for product 3. -/
def c5P3 : ProductRow := ⟨3, "P3", some 10, some "X", some "phone", some 4, none, some 5⟩

/-- Feature row for product 5. -/
def c5P5 : ProductRow := ⟨5, "P5", some 20, some "X", some "phone", some 4, none, some 5⟩

/-- Trained state whose similarity row for product 1 holds two neighbors
with equal scores, the higher id first in dict insertion order. -/
def c5St : ServiceState :=
  ⟨[(1, [(5, 4), (3, 4)])], [], [(3, c5P3), (5, c5P5)], true⟩

/-- Empty production mirror (the fallback is not exercised). -/
def c5Db : MirrorState := ⟨[], [], [], []⟩

/-- One order by customer 7. -/
def c6Orders : List OrderRow := [⟨10, 7, none⟩]

/-- Two items of that one order: one customer (one row), two products
(two columns). -/
def c6Items : List OrderItemRow := [⟨1, 10, 1, 1, none⟩, ⟨2, 10, 2, 1, none⟩]

/-- Product with category phone, brand X, price 10. -/
def c8P1 : ProductRow := ⟨1, "A", some 10, some "X", some "phone", some 4, none, some 1⟩

/-- Product with category phone, brand X, price 20. -/
def c8P2 : ProductRow := ⟨2, "B", some 20, some "X", some "phone", some 4, none, some 1⟩

/-- One order containing product 1 twice (two orderitem rows) and
product 2 once. -/
def c9Items : List OrderItemRow :=
  [⟨1, 10, 1, 1, none⟩, ⟨2, 10, 1, 1, none⟩, ⟨3, 10, 2, 1, none⟩]

/-- Two orders, each containing products 1 and 2 once. -/
def c9wItems : List OrderItemRow :=
  [⟨1, 10, 1, 1, none⟩, ⟨2, 10, 2, 1, none⟩, ⟨3, 20, 1, 1, none⟩, ⟨4, 20, 2, 1, none⟩]

/-- Feature row for product 3. -/
def c10P3 : ProductRow := ⟨3, "N3", some 10, some "X", some "phone", some 4, none, some 5⟩

/-- Feature row for product 5. -/
def c10P5 : ProductRow := ⟨5, "N5", some 20, some "X", some "phone", some 4, none, some 5⟩

/-- Trained state whose similarity row for product 1 holds two neighbors
with distinct scores. -/
def c10St : ServiceState :=
  ⟨[(1, [(5, 4), (3, 2)])], [], [(3, c10P3), (5, c10P5)], true⟩

/-- Empty production mirror. -/
def c10Db : MirrorState := ⟨[], [], [], []⟩

/- ===== Helper lemmas ===== -/

theorem mem_pair_ite {α : Type} {c : Prop} [Decidable c] {a b e : α} :
    (e ∈ if c then [a, b] else ([] : List α)) ↔ c ∧ (e = a ∨ e = b) := by
  by_cases h : c <;> simp [h]

theorem mem_build_simple_copurchase (items : List OrderItemRow) (e : Nat × Nat × Nat) :
    e ∈ build_simple_copurchase_matrix items ↔
      ∃ k ∈ copurchase_group_keys items,
        2 ≤ copurchase_pair_count items k.1 k.2 ∧
        (e = (k.1, k.2, copurchase_pair_count items k.1 k.2) ∨
         e = (k.2, k.1, copurchase_pair_count items k.1 k.2)) := by
  simp only [build_simple_copurchase_matrix, List.mem_flatMap]
  exact exists_congr fun k => and_congr_right fun _ => mem_pair_ite

theorem copurchase_group_key_lt (items : List OrderItemRow) (k : Nat × Nat)
    (hk : k ∈ copurchase_group_keys items) : k.1 < k.2 := by
  simp only [copurchase_group_keys, List.mem_dedup, List.mem_map] at hk
  obtain ⟨p, hp, hk⟩ := hk
  simp only [item_join_pairs, List.mem_flatMap, List.mem_map, List.mem_filter,
    Bool.and_eq_true, beq_iff_eq, decide_eq_true_eq] at hp
  obtain ⟨i1, hi1, i2, ⟨hi2, hord, hlt⟩, rfl⟩ := hp
  subst hk
  exact hlt

theorem interactions_eq_nil_iff (orders : List OrderRow) (items : List OrderItemRow) :
    interactions orders items = [] ↔
      (∀ o ∈ orders, ∀ it ∈ items, ¬ it.order_id = o.id) := by
  simp [interactions, interaction_keys, joined_order_rows,
    List.map_eq_nil_iff, List.dedup_eq_nil, List.flatMap_eq_nil_iff,
    List.filter_eq_nil_iff]

theorem calc_eq_spec (p1 p2 : ProductRow) (h1 : price_ok p1) (h2 : price_ok p2) :
    calculate_product_similarity p1 p2 = spec_fallback_score p1 p2 := by
  unfold calculate_product_similarity spec_fallback_score
  rcases h1 with hn1 | ⟨a, ha, hapos⟩
  · rcases h2 with hn2 | ⟨b, hb, hbpos⟩ <;>
      simp [hn1] <;> split_ifs <;> ring_nf
  · rcases h2 with hn2 | ⟨b, hb, hbpos⟩
    · simp only [ha, hn2]
      split_ifs <;> ring_nf
    · have hmax : 0 < max a b := lt_max_of_lt_left hapos
      simp only [ha, hb]
      rw [if_pos ⟨ne_of_gt hapos, ne_of_gt hbpos⟩, if_pos hmax]
      split_ifs <;> ring_nf

theorem mem_sim_edges (l : List (ProductRow × ProductRow)) (e : Nat × Nat × ℚ) :
    e ∈ sim_edges l ↔
      ∃ pq ∈ l, (0.3 : ℚ) < calculate_product_similarity pq.1 pq.2 ∧
        (e = (pq.1.id, pq.2.id, calculate_product_similarity pq.1 pq.2) ∨
         e = (pq.2.id, pq.1.id, calculate_product_similarity pq.1 pq.2)) := by
  induction l with
  | nil => simp [sim_edges]
  | cons pq rest ih =>
    simp only [sim_edges]
    by_cases h : (0.3 : ℚ) < calculate_product_similarity pq.1 pq.2
    · rw [if_pos h]
      simp only [List.mem_cons, ih]
      constructor
      · rintro (rfl | rfl | ⟨q, hq, hlt, hor⟩)
        · exact ⟨pq, Or.inl rfl, h, Or.inl rfl⟩
        · exact ⟨pq, Or.inl rfl, h, Or.inr rfl⟩
        · exact ⟨q, Or.inr hq, hlt, hor⟩
      · rintro ⟨q, hq | hq, hlt, hor⟩
        · subst hq
          rcases hor with rfl | rfl
          · exact Or.inl rfl
          · exact Or.inr (Or.inl rfl)
        · exact Or.inr (Or.inr ⟨q, hq, hlt, hor⟩)
    · rw [if_neg h]
      simp only [ih, List.mem_cons]
      constructor
      · rintro ⟨q, hq, hlt, hor⟩
        exact ⟨q, Or.inr hq, hlt, hor⟩
      · rintro ⟨q, hq | hq, hlt, hor⟩
        · subst hq
          exact absurd hlt h
        · exact ⟨q, hq, hlt, hor⟩

theorem mem_insert_desc {x a : Nat × ℚ} {l : List (Nat × ℚ)} :
    a ∈ insert_desc x l ↔ a = x ∨ a ∈ l := by
  induction l with
  | nil => simp [insert_desc]
  | cons y ys ih =>
    simp only [insert_desc]
    split
    · simp
    · simp only [List.mem_cons, ih]
      tauto

theorem mem_py_sorted_desc {a : Nat × ℚ} {l : List (Nat × ℚ)} :
    a ∈ py_sorted_desc l ↔ a ∈ l := by
  induction l with
  | nil => simp [py_sorted_desc]
  | cons x xs ih => simp [py_sorted_desc, mem_insert_desc, ih]

theorem pairwise_insert_desc {x : Nat × ℚ} {l : List (Nat × ℚ)}
    (h : l.Pairwise (fun a b => b.2 ≤ a.2)) :
    (insert_desc x l).Pairwise (fun a b => b.2 ≤ a.2) := by
  induction l with
  | nil => simp [insert_desc]
  | cons y ys ih =>
    rcases List.pairwise_cons.1 h with ⟨hy, hys⟩
    simp only [insert_desc]
    split
    · refine List.pairwise_cons.2 ⟨?_, h⟩
      intro b hb
      rcases List.mem_cons.1 hb with rfl | hb'
      · assumption
      · exact le_trans (hy b hb') (by assumption)
    · refine List.pairwise_cons.2 ⟨?_, ih hys⟩
      intro b hb
      rcases mem_insert_desc.1 hb with rfl | hb'
      · exact le_of_not_le (by assumption)
      · exact hy b hb'

theorem pairwise_py_sorted_desc (l : List (Nat × ℚ)) :
    (py_sorted_desc l).Pairwise (fun a b => b.2 ≤ a.2) := by
  induction l with
  | nil => simp [py_sorted_desc]
  | cons x xs ih => exact pairwise_insert_desc ih

theorem enrich_similar_some {feats : List (Nat × ProductRow)} {sc : Nat × ℚ}
    {r : ProductRecommendation} (h : enrich_similar feats sc = some r) :
    r.product_id = sc.1 ∧ r.score = sc.2 := by
  unfold enrich_similar at h
  cases halk : alookup feats sc.1 with
  | none => simp [halk] at h
  | some p =>
    simp only [halk, Option.some.injEq] at h
    subst h
    exact ⟨rfl, rfl⟩

theorem pairwise_filterMap_of_pairwise {α β : Type} {R : α → α → Prop} {S : β → β → Prop}
    (f : α → Option β)
    (hf : ∀ a a' b b', R a a' → f a = some b → f a' = some b' → S b b')
    {l : List α} (h : l.Pairwise R) : (l.filterMap f).Pairwise S := by
  induction l with
  | nil => simp
  | cons x xs ih =>
    rcases List.pairwise_cons.1 h with ⟨hx, hxs⟩
    cases hfx : f x with
    | none => simpa [List.filterMap_cons, hfx] using ih hxs
    | some b =>
      simp only [List.filterMap_cons, hfx]
      refine List.pairwise_cons.2 ⟨?_, ih hxs⟩
      intro b' hb'
      rcases List.mem_filterMap.1 hb' with ⟨a, ha, hfa⟩
      exact hf x a b b' (hx a ha) hfx hfa

/- ===== Claim theorems ===== -/

/-- C1, counterexample.  The claim says a failed training run leaves the
in-memory matrices exactly as before.  In the state `c1St`, a run whose
similarity build fails after the co-purchase build succeeded reports an
error, yet the in-memory co-purchase matrix has already been replaced. -/
theorem c1_failed_train_mutates_memory :
    (train_models c1St c1Files c1Env).1 = .error "similarity query failed" ∧
    (train_models c1St c1Files c1Env).2.1.copurchase_matrix ≠ c1St.copurchase_matrix := by
  decide

/-- C1, amended.  For every prior state and every failing training run,
the persisted artifact files and the trained flag are unchanged; the
in-memory matrices built before the failing step, however, keep their
new values (see the counterexample). -/
theorem c1_failed_train_preserves_files_and_flag (st : ServiceState)
    (files : ArtifactFiles) (env : TrainEnv) (e : String)
    (h : (train_models st files env).1 = .error e) :
    (train_models st files env).2.2 = files ∧
    (train_models st files env).2.1.models_trained = st.models_trained := by
  unfold train_models at h ⊢
  cases h1 : env.anaConn <;> simp [h1] at h ⊢
  cases h2 : env.buildCopurchase <;> simp [h2] at h ⊢
  cases h3 : env.buildSimilarity <;> simp [h3] at h ⊢
  cases h4 : env.loadFeatures <;> simp [h4] at h ⊢

/-- C1, witness for the amended theorem at the concrete failing run. -/
theorem c1_failed_train_preserves_files_and_flag_witness :
    (train_models c1St c1Files c1Env).2.2 = c1Files ∧
    (train_models c1St c1Files c1Env).2.1.models_trained = c1St.models_trained :=
  c1_failed_train_preserves_files_and_flag c1St c1Files c1Env
    "similarity query failed" (by decide)

/-- C2, code bug evaluation.  The claim says an unknown product or empty
result is reported as NotFound (404), distinct from a 500.  Both route
handlers raise their `HTTPException(404)` inside the `try` block, and the
blanket `except Exception` catches it and re-raises it as a 500: with an
empty service result the caller observes status 500, never 404. -/
theorem c2_empty_result_reported_as_500 :
    (get_similar_products_endpoint 10 (.ok []) 999).1 =
      .error (.httpException 500
        "Error getting similar products: 404: No similar products found for product 999") ∧
    (get_copurchase_endpoint 10 (.ok []) 999).1 =
      .error (.httpException 500
        "Error getting co-purchase recommendations: 404: No co-purchase recommendations found for product 999") := by
  exact ⟨rfl, rfl⟩

/-- C3.  For every mirror state, if the sync attempt fails — either
connection, or any of the four reads — the mirror's four tables are left
exactly as they were: the staged delete and re-insert are committed only
after every read has succeeded. -/
theorem c3_failed_sync_preserves_mirror (mirror : MirrorState) (env : SyncEnv)
    (e : String) (h : (sync_production_data mirror env).1 = .error e) :
    (sync_production_data mirror env).2 = mirror := by
  unfold sync_production_data at h ⊢
  cases hp : env.prodConn <;> simp [hp] at h ⊢
  cases ha : env.anaConn <;> simp [ha] at h ⊢
  cases hs : sync_txn_steps env <;> simp [hs] at h ⊢

/-- C3, witness: a read that fails midway through the rewrite leaves the
populated mirror untouched. -/
theorem c3_failed_sync_preserves_mirror_witness :
    (sync_production_data c3Mirror c3Env).1 = .error "orders unreachable" ∧
    (sync_production_data c3Mirror c3Env).2 = c3Mirror :=
  ⟨by decide, c3_failed_sync_preserves_mirror c3Mirror c3Env "orders unreachable" (by decide)⟩

/-- C4, code bug evaluation.  The claim says the overall status is
"healthy" only if both stores are reachable.  The code computes
`all(db_status.values())` over the status strings, and an unreachable
store contributes the non-empty — hence truthy — string
"error: connection refused", so a trained service reports "healthy" even
with the production store down. -/
theorem c4_unreachable_store_still_healthy :
    db_status_entry false "connection refused" = "error: connection refused" ∧
    health_overall_status true ⟨false, "connection refused", true, ""⟩ = "healthy" := by
  exact ⟨rfl, rfl⟩

/-- C5, counterexample.  The claim says ties are broken by ascending
product id.  In the trained state `c5St` the similarity row of product 1
holds neighbors 5 and 3 with equal scores, inserted with 5 first: the
stable sort keeps 5 before 3, violating the claimed tie order. -/
theorem c5_tie_break_counterexample :
    ((get_similar_products c5St c5Db 1 10).map (fun r => r.product_id) = [5, 3]) ∧
    ((get_similar_products c5St c5Db 1 10).map (fun r => r.score) = [4, 4]) ∧
    ¬ claim_tie_order (get_similar_products c5St c5Db 1 10) := by
  unfold claim_tie_order
  decide

/-- C5, amended.  On the trained path, for every limit (as a natural
number) the result has at most `limit` entries, never contains the
queried product itself provided its stored row has no self edge (rows
built by the trainers never do), and is sorted by non-increasing score —
with ties left in the row's stored order by the stable sort, not
reordered by ascending product id. -/
theorem c5_trained_path_bounded_sorted (st : ServiceState) (db : MirrorState)
    (pid : Nat) (limit : Nat) (row : List (Nat × ℚ))
    (htr : st.models_trained = true)
    (hrow : alookup st.similarity_matrix pid = some row)
    (hself : ∀ x ∈ row, ¬ x.1 = pid) :
    (get_similar_products st db pid (limit : Int)).length ≤ limit ∧
    (∀ r ∈ get_similar_products st db pid (limit : Int), ¬ r.product_id = pid) ∧
    (get_similar_products st db pid (limit : Int)).Pairwise
      (fun r1 r2 => r2.score ≤ r1.score) := by
  have hexp : get_similar_products st db pid (limit : Int) =
      ((py_sorted_desc row).take limit).filterMap (enrich_similar st.product_features) := by
    simp [get_similar_products, htr, hrow, py_slice_to, Int.toNat_natCast]
  rw [hexp]
  refine ⟨?_, ?_, ?_⟩
  · exact le_trans (List.length_filterMap_le _ _) (List.length_take_le _ _)
  · intro r hr
    rcases List.mem_filterMap.1 hr with ⟨sc, hsc, henr⟩
    have hid := (enrich_similar_some henr).1
    have hscrow : sc ∈ row :=
      mem_py_sorted_desc.1 ((List.take_sublist _ _).subset hsc)
    rw [hid]
    exact hself sc hscrow
  · refine pairwise_filterMap_of_pairwise _ ?_
      (List.Pairwise.sublist (List.take_sublist _ _) (pairwise_py_sorted_desc row))
    intro a a' b b' hR ha ha'
    have h1 := (enrich_similar_some ha).2
    have h2 := (enrich_similar_some ha').2
    rw [h1, h2]
    exact hR

/-- C5, witness for the amended theorem at the concrete trained state. -/
theorem c5_trained_path_bounded_sorted_witness :
    (get_similar_products c5St c5Db 1 ((10 : Nat) : Int)).length ≤ 10 ∧
    (∀ r ∈ get_similar_products c5St c5Db 1 ((10 : Nat) : Int), ¬ r.product_id = 1) ∧
    (get_similar_products c5St c5Db 1 ((10 : Nat) : Int)).Pairwise
      (fun r1 r2 => r2.score ≤ r1.score) :=
  c5_trained_path_bounded_sorted c5St c5Db 1 10 [(5, 4), (3, 4)] rfl rfl (by decide)

/-- C6, counterexample.  The claim says a table with fewer than 2 rows
or columns makes the trainer skip factorization and use the fallback.
With one customer and two products the interaction table has a single
row, yet the build path is matrix factorization, not the fallback. -/
theorem c6_small_table_counterexample :
    interaction_rows c6Orders c6Items = 1 ∧
    interaction_cols c6Orders c6Items = 2 ∧
    copurchase_build_path true c6Orders c6Items = .factorization := by
  decide

/-- C6, amended.  The co-occurrence fallback is selected exactly when the
ML libraries are unavailable or the interaction table is empty — that
is, when no order item joins any order; any non-empty table goes to
matrix factorization, whatever its dimensions. -/
theorem c6_fallback_iff_no_interactions (ml : Bool) (orders : List OrderRow)
    (items : List OrderItemRow) :
    copurchase_build_path ml orders items = .simple_fallback ↔
      (ml = false ∨ ∀ o ∈ orders, ∀ it ∈ items, ¬ it.order_id = o.id) := by
  have hempty := interactions_eq_nil_iff orders items
  cases ml with
  | false => simp [copurchase_build_path]
  | true =>
    rcases Classical.em (interactions orders items = []) with hi | hi
    · exact iff_of_true (by simp [copurchase_build_path, hi]) (Or.inr (hempty.1 hi))
    · refine iff_of_false (by simp [copurchase_build_path, hi]) ?_
      rintro (h | h)
      · exact absurd h (by simp)
      · exact hi (hempty.2 h)

/-- C7.  For every limit above 50, both read endpoints return the 400
validation error, and the service layer is never invoked — no data store
is touched (the check precedes the `try` block and the service call, and
its `HTTPException(400)` is raised outside the `except` wrapper). -/
theorem c7_over_limit_rejected_without_store_access (limit : Int)
    (svc : Except PyExc (List ProductRecommendation)) (pid : Nat)
    (h : 50 < limit) :
    get_similar_products_endpoint limit svc pid =
      (.error (.httpException 400 "Limit cannot exceed 50"), false) ∧
    get_copurchase_endpoint limit svc pid =
      (.error (.httpException 400 "Limit cannot exceed 50"), false) := by
  constructor <;> simp [get_similar_products_endpoint, get_copurchase_endpoint, h]

/-- C7, witness at limit 51. -/
theorem c7_over_limit_rejected_without_store_access_witness :
    (50 : Int) < 51 ∧
    get_similar_products_endpoint 51 (.ok []) 1 =
      (.error (.httpException 400 "Limit cannot exceed 50"), false) ∧
    get_copurchase_endpoint 51 (.ok []) 1 =
      (.error (.httpException 400 "Limit cannot exceed 50"), false) :=
  ⟨by decide, c7_over_limit_rejected_without_store_access 51 (.ok []) 1 (by decide)⟩

/-- C8.  For products whose known prices are positive, the fallback
similarity score computed by the code equals the specification's
formula (0.4 same category + 0.3 same brand + 0.2 price closeness,
capped at 1.0); and the fallback matrix stores an edge in both
directions with that score exactly when the score exceeds 0.3. -/
theorem c8_fallback_similarity_formula (p1 p2 : ProductRow)
    (h1 : price_ok p1) (h2 : price_ok p2)
    (ps : List ProductRow) (a b : Nat) (s : ℚ) :
    calculate_product_similarity p1 p2 = spec_fallback_score p1 p2 ∧
    ((a, b, s) ∈ build_simple_similarity_matrix ps ↔
      (b, a, s) ∈ build_simple_similarity_matrix ps) ∧
    ((a, b, s) ∈ build_simple_similarity_matrix ps → (0.3 : ℚ) < s) ∧
    (∀ pq ∈ ordered_pairs ps,
      (0.3 : ℚ) < calculate_product_similarity pq.1 pq.2 →
        (pq.1.id, pq.2.id, calculate_product_similarity pq.1 pq.2) ∈
          build_simple_similarity_matrix ps ∧
        (pq.2.id, pq.1.id, calculate_product_similarity pq.1 pq.2) ∈
          build_simple_similarity_matrix ps) := by
  unfold build_simple_similarity_matrix
  refine ⟨calc_eq_spec p1 p2 h1 h2, ?_, ?_, ?_⟩
  · rw [mem_sim_edges, mem_sim_edges]
    refine exists_congr fun pq => and_congr_right fun _ => and_congr_right fun _ => ?_
    constructor
    · rintro (h | h) <;> simp_all [Prod.ext_iff]
    · rintro (h | h) <;> simp_all [Prod.ext_iff]
  · rw [mem_sim_edges]
    rintro ⟨pq, hpq, hlt, h | h⟩ <;> simp_all [Prod.ext_iff]
  · intro pq hpq hlt
    constructor
    · exact (mem_sim_edges _ _).2 ⟨pq, hpq, hlt, Or.inl rfl⟩
    · exact (mem_sim_edges _ _).2 ⟨pq, hpq, hlt, Or.inr rfl⟩

/-- C8, witness at two concrete products with positive prices. -/
theorem c8_fallback_similarity_formula_witness :
    calculate_product_similarity c8P1 c8P2 = spec_fallback_score c8P1 c8P2 ∧
    ((1, 2, calculate_product_similarity c8P1 c8P2) ∈
        build_simple_similarity_matrix [c8P1, c8P2] ↔
      (2, 1, calculate_product_similarity c8P1 c8P2) ∈
        build_simple_similarity_matrix [c8P1, c8P2]) ∧
    ((1, 2, calculate_product_similarity c8P1 c8P2) ∈
        build_simple_similarity_matrix [c8P1, c8P2] →
      (0.3 : ℚ) < calculate_product_similarity c8P1 c8P2) ∧
    (∀ pq ∈ ordered_pairs [c8P1, c8P2],
      (0.3 : ℚ) < calculate_product_similarity pq.1 pq.2 →
        (pq.1.id, pq.2.id, calculate_product_similarity pq.1 pq.2) ∈
          build_simple_similarity_matrix [c8P1, c8P2] ∧
        (pq.2.id, pq.1.id, calculate_product_similarity pq.1 pq.2) ∈
          build_simple_similarity_matrix [c8P1, c8P2]) :=
  c8_fallback_similarity_formula c8P1 c8P2
    (Or.inr ⟨10, rfl, by norm_num⟩) (Or.inr ⟨20, rfl, by norm_num⟩)
    [c8P1, c8P2] 1 2 (calculate_product_similarity c8P1 c8P2)

/-- C9, counterexample.  The claim says the stored weight is the number
of orders in which the two products appear together.  With product 1
occurring twice in a single order alongside product 2, the SQL
`COUNT(star)` counts two joined row pairs: the edge (1,2) is stored with
weight 2, though the products share only one order. -/
theorem c9_weight_counterexample :
    (1, 2, 2) ∈ build_simple_copurchase_matrix c9Items ∧
    num_orders_together c9Items 1 2 = 1 := by
  decide

/-- C9, amended.  For every mirror state the fallback co-purchase matrix
is symmetric — it holds (a,b,w) exactly when it holds (b,a,w) — every
stored weight is at least 2, and the weight is the number of joined
orderitem-row pairs of the two products (equal to the number of shared
orders only when no product repeats within an order). -/
theorem c9_symmetry_and_pair_count (items : List OrderItemRow) (x y w : Nat) :
    ((x, y, w) ∈ build_simple_copurchase_matrix items ↔
      (y, x, w) ∈ build_simple_copurchase_matrix items) ∧
    ((x, y, w) ∈ build_simple_copurchase_matrix items →
      2 ≤ w ∧ ¬ x = y ∧
      (x < y → w = copurchase_pair_count items x y) ∧
      (y < x → w = copurchase_pair_count items y x)) := by
  constructor
  · rw [mem_build_simple_copurchase, mem_build_simple_copurchase]
    refine exists_congr fun k => and_congr_right fun _ => and_congr_right fun _ => ?_
    constructor
    · rintro (h | h) <;> simp_all [Prod.ext_iff]
    · rintro (h | h) <;> simp_all [Prod.ext_iff]
  · intro hmem
    rw [mem_build_simple_copurchase] at hmem
    obtain ⟨k, hk, hcount, hor⟩ := hmem
    have hlt := copurchase_group_key_lt items k hk
    rcases hor with h | h <;> simp only [Prod.mk.injEq] at h <;>
      obtain ⟨rfl, rfl, rfl⟩ := h
    · exact ⟨hcount, by omega, fun _ => rfl, fun hyx => absurd hyx (by omega)⟩
    · exact ⟨hcount, by omega, fun hxy => absurd hxy (by omega), fun _ => rfl⟩

/-- C9, witness at a duplicate-free mirror where products 1 and 2 share
two orders. -/
theorem c9_symmetry_and_pair_count_witness :
    ((1, 2, 2) ∈ build_simple_copurchase_matrix c9wItems ↔
      (2, 1, 2) ∈ build_simple_copurchase_matrix c9wItems) ∧
    (2 ≤ 2 ∧ ¬ (1 : Nat) = 2 ∧
      ((1 : Nat) < 2 → 2 = copurchase_pair_count c9wItems 1 2) ∧
      ((2 : Nat) < 1 → 2 = copurchase_pair_count c9wItems 2 1)) :=
  ⟨(c9_symmetry_and_pair_count c9wItems 1 2 2).1,
   (c9_symmetry_and_pair_count c9wItems 1 2 2).2 (by decide)⟩

/-- C10.  No lower bound is enforced on the limit: every limit of at
most 50 — zero and negative values included — passes validation and
reaches the service layer; the trained path with limit 0 returns the
empty list, whose emptiness triggers the handler's no-results branch
(the raised 404, which the outer handler then wraps); and a negative
limit flows unchecked into the Python slice, here dropping the last of
two entries rather than being rejected. -/
theorem c10_no_lower_bound_on_limit (limit : Int) (hlim : limit ≤ 50)
    (svc : Except PyExc (List ProductRecommendation)) (pid : Nat)
    (st : ServiceState) (db : MirrorState) (row : List (Nat × ℚ))
    (htr : st.models_trained = true)
    (hrow : alookup st.similarity_matrix pid = some row) :
    (get_similar_products_endpoint limit svc pid).2 = true ∧
    (get_copurchase_endpoint limit svc pid).2 = true ∧
    get_similar_products st db pid 0 = [] ∧
    similar_try_body (.ok []) pid =
      .error (.httpException 404
        ("No similar products found for product " ++ toString pid)) ∧
    (get_similar_products c10St c10Db 1 (-1)).map (fun r => r.product_id) = [5] := by
  have hnot : ¬ limit > 50 := by omega
  refine ⟨?_, ?_, ?_, ?_, ?_⟩
  · unfold get_similar_products_endpoint
    rw [if_neg hnot]
    cases similar_try_body svc pid <;> rfl
  · unfold get_copurchase_endpoint
    rw [if_neg hnot]
    cases copurchase_try_body svc pid <;> rfl
  · simp [get_similar_products, htr, hrow, py_slice_to]
  · rfl
  · decide

/-- C10, witness at limit 0 with the concrete trained state. -/
theorem c10_no_lower_bound_on_limit_witness :
    (0 : Int) ≤ 50 ∧
    ((get_similar_products_endpoint 0 (.ok []) 1).2 = true ∧
     (get_copurchase_endpoint 0 (.ok []) 1).2 = true ∧
     get_similar_products c10St c10Db 1 0 = [] ∧
     similar_try_body (.ok []) 1 =
       .error (.httpException 404
         ("No similar products found for product " ++ toString (1 : Nat))) ∧
     (get_similar_products c10St c10Db 1 (-1)).map (fun r => r.product_id) = [5]) :=
  ⟨by decide,
   c10_no_lower_bound_on_limit 0 (by decide) (.ok []) 1 c10St c10Db
     [(5, 4), (3, 2)] rfl rfl⟩

end Mobilio
